import Mathlib

/-!
Verification of the book-inventory program (`src/book.py`).

The program is embedded shallowly:
* `Book` is the four-field record built by `Book.__init__`; the mutable
  `status` field is modelled by state passing, so `issue` and `return_book`
  return the success flag together with the updated book.
* A JSON object is modelled as an association list `Dict` from string keys
  to string values; `to_dict` / `from_dict` translate lines 44-61.
  `from_dict` returns `Except` because `data["k"]` raises `KeyError` when
  the key is absent.
* The catalog file's parsed content is `FileContent`: either content that
  does not parse as a JSON array of book objects, or the list of objects.
  `load_books` models the `try`/`except` of lines 72-85 on an existing
  file: the body is `loadAttempt`, and any error is swallowed, leaving the
  empty collection.
-/

/-- The four attributes set by `Book.__init__` (src/book.py lines 17-22). -/
structure Book where
  title : String
  author : String
  isbn : String
  status : String
deriving DecidableEq, Repr

/-- `Book(title, author, isbn)` as the CLI's Add Book path calls it
(line 142): the `status` parameter is left at its default `"available"`
(line 18). -/
def Book.init (title author isbn : String) : Book :=
  { title := title, author := author, isbn := isbn, status := "available" }

/-- `Book.issue` (lines 27-32): if the status is `"available"` set it to
`"issued"` and return `True`, else return `False`.  The pair is
(returned flag, book after the call). -/
def Book.issue (b : Book) : Bool × Book :=
  if b.status = "available" then (true, { b with status := "issued" })
  else (false, b)

/-- `Book.return_book` (lines 34-39): if the status is `"issued"` set it to
`"available"` and return `True`, else return `False`. -/
def Book.return_book (b : Book) : Bool × Book :=
  if b.status = "issued" then (true, { b with status := "available" })
  else (false, b)

/-- `Book.is_available` (lines 41-42). -/
def Book.is_available (b : Book) : Bool :=
  b.status == "available"

/-- A JSON object: an association list of string keys to string values. -/
def Dict : Type := List (String × String)

/-- Python `data[k]` on a dict: the value at `k`, or a `KeyError`. -/
def Dict.getKey (data : Dict) (k : String) : Except String String :=
  match List.lookup k data with
  | some v => Except.ok v
  | none => Except.error ("KeyError: " ++ k)

/-- `Book.to_dict` (lines 44-51): the JSON-serializable dictionary of the
four fields. -/
def Book.to_dict (b : Book) : Dict :=
  [("title", b.title), ("author", b.author), ("isbn", b.isbn),
   ("status", b.status)]

/-- `Book.from_dict` (lines 53-61): read the four fields out of the
dictionary, in the order the keyword arguments are evaluated; a missing
key raises `KeyError`, modelled by `Except.error`. -/
def Book.from_dict (data : Dict) : Except String Book :=
  match data.getKey "title" with
  | Except.error e => Except.error e
  | Except.ok t =>
    match data.getKey "author" with
    | Except.error e => Except.error e
    | Except.ok a =>
      match data.getKey "isbn" with
      | Except.error e => Except.error e
      | Except.ok i =>
        match data.getKey "status" with
        | Except.error e => Except.error e
        | Except.ok s =>
          Except.ok { title := t, author := a, isbn := i, status := s }

/-- The parsed content of the catalog file: either content that fails to
parse as a JSON array of objects, or the list of objects. -/
inductive FileContent : Type where
  | malformed : FileContent
  | records : List Dict → FileContent

/-- `[Book.from_dict(book) for book in data]` (line 78) with Python
exception semantics: the first failing record aborts the whole
comprehension. -/
def fromRecords : List Dict → Except String (List Book)
  | [] => Except.ok []
  | d :: rest => do
      let b ← Book.from_dict d
      let bs ← fromRecords rest
      return b :: bs

/-- The body of the `try` in `LibraryInventory.load_books` (lines 75-79)
when the file exists: parse the content and materialize the books. -/
def loadAttempt : FileContent → Except String (List Book)
  | FileContent.malformed => Except.error "json.JSONDecodeError"
  | FileContent.records rs => fromRecords rs

/-- `LibraryInventory.load_books` (lines 72-85) on an existing file: any
exception in the body is caught and the collection set to the empty list
(lines 83-85). -/
def load_books (c : FileContent) : List Book :=
  match loadAttempt c with
  | Except.ok bs => bs
  | Except.error _ => []

/-- `LibraryInventory.save_books` (lines 87-94): the JSON written is the
array of the books' dictionaries, in order (line 91). -/
def save_books (books : List Book) : FileContent :=
  FileContent.records (books.map Book.to_dict)

/-- The in-memory state of `LibraryInventory`: its ordered book list. -/
structure LibraryInventory where
  books : List Book
deriving DecidableEq, Repr

/-- `LibraryInventory.add_book` (lines 98-100): append to the list. -/
def LibraryInventory.add_book (inv : LibraryInventory) (b : Book) :
    LibraryInventory :=
  { books := inv.books ++ [b] }

/-- `needle.isPrefixOf hay` written out for lists of characters. -/
def leadsWith : List Char → List Char → Bool
  | [], _ => true
  | _ :: _, [] => false
  | a :: as, b :: bs => a == b && leadsWith as bs

/-- Python's substring test `needle in hay` on lists of characters. -/
def containsChars (needle : List Char) : List Char → Bool
  | [] => needle.isEmpty
  | b :: bs => leadsWith needle (b :: bs) || containsChars needle bs

/-- Python `needle in hay` on strings. -/
def strContains (hay needle : String) : Bool :=
  containsChars needle.data hay.data

/-- Python `s.lower()`: lower-case every character.  Written over the
character list (rather than `String.toLower`, whose `mapAux` recursion the
kernel cannot reduce) so concrete searches evaluate. -/
def lowerStr (s : String) : String :=
  String.mk (s.data.map Char.toLower)

/-- `LibraryInventory.search_by_title` (lines 102-103):
`[b for b in self.books if title.lower() in b.title.lower()]`. -/
def LibraryInventory.search_by_title (inv : LibraryInventory)
    (title : String) : List Book :=
  inv.books.filter (fun b => strContains (lowerStr b.title) (lowerStr title))

/-- The `for` loop of `LibraryInventory.search_by_isbn` (lines 106-109):
return the first book whose isbn equals the argument, else `None`. -/
def searchLoop : List Book → String → Option Book
  | [], _ => none
  | b :: rest, isbn => if b.isbn == isbn then some b else searchLoop rest isbn

/-- `LibraryInventory.search_by_isbn` (lines 105-109). -/
def LibraryInventory.search_by_isbn (inv : LibraryInventory)
    (isbn : String) : Option Book :=
  searchLoop inv.books isbn

/-- `LibraryInventory.display_all` (lines 111-112). -/
def LibraryInventory.display_all (inv : LibraryInventory) : List Book :=
  inv.books

/-- The spec's status invariant: `status` is one of the two enum values. -/
def statusValid (b : Book) : Bool :=
  b.status == "available" || b.status == "issued"

/-- Deserializing the dictionary a book serializes to restores the book. -/
theorem from_dict_to_dict (b : Book) :
    Book.from_dict (Book.to_dict b) = Except.ok b := by
  cases b
  rfl

/-- A successful `from_dict` read each of its four fields out of the
dictionary. -/
theorem from_dict_ok (d : Dict) (c : Book)
    (h : Book.from_dict d = Except.ok c) :
    List.lookup "title" d = some c.title ∧
    List.lookup "author" d = some c.author ∧
    List.lookup "isbn" d = some c.isbn ∧
    List.lookup "status" d = some c.status := by
  unfold Book.from_dict Dict.getKey at h
  cases h1 : List.lookup "title" d with
  | none => rw [h1] at h; simp at h
  | some tv =>
  rw [h1] at h
  cases h2 : List.lookup "author" d with
  | none => rw [h2] at h; simp at h
  | some av =>
  rw [h2] at h
  cases h3 : List.lookup "isbn" d with
  | none => rw [h3] at h; simp at h
  | some iv =>
  rw [h3] at h
  cases h4 : List.lookup "status" d with
  | none => rw [h4] at h; simp at h
  | some sv =>
  rw [h4] at h
  simp only [Except.ok.injEq] at h
  subst h
  exact ⟨rfl, rfl, rfl, rfl⟩

/-- When all four keys are present, `from_dict` succeeds with exactly
those field values. -/
theorem from_dict_present (d : Dict) (tv av iv sv : String)
    (h1 : List.lookup "title" d = some tv)
    (h2 : List.lookup "author" d = some av)
    (h3 : List.lookup "isbn" d = some iv)
    (h4 : List.lookup "status" d = some sv) :
    Book.from_dict d = Except.ok (Book.mk tv av iv sv) := by
  unfold Book.from_dict Dict.getKey
  rw [h1, h2, h3, h4]

/-- When any of the four keys is absent, `from_dict` raises. -/
theorem from_dict_missing (d : Dict)
    (h : List.lookup "title" d = none ∨ List.lookup "author" d = none ∨
      List.lookup "isbn" d = none ∨ List.lookup "status" d = none) :
    ∃ e, Book.from_dict d = Except.error e := by
  unfold Book.from_dict Dict.getKey
  cases h1 : List.lookup "title" d with
  | none => exact ⟨_, rfl⟩
  | some tv =>
  cases h2 : List.lookup "author" d with
  | none => exact ⟨_, rfl⟩
  | some av =>
  cases h3 : List.lookup "isbn" d with
  | none => exact ⟨_, rfl⟩
  | some iv =>
  cases h4 : List.lookup "status" d with
  | none => exact ⟨_, rfl⟩
  | some sv =>
  rw [h1, h2, h3, h4] at h
  simp at h

/-- C1: issuing an available book succeeds and sets the status to
`"issued"`; issuing a non-available book fails and leaves the whole book
unchanged; a second consecutive `issue` always fails and changes
nothing. -/
theorem issue_spec (b : Book) :
    (b.status = "available" →
      b.issue.1 = true ∧ b.issue.2 = { b with status := "issued" }) ∧
    (b.status ≠ "available" → b.issue.1 = false ∧ b.issue.2 = b) ∧
    (b.issue.2.issue.1 = false ∧ b.issue.2.issue.2 = b.issue.2) := by
  by_cases h : b.status = "available" <;>
    simp [Book.issue, h]

/-- Witness for C1: a concrete available book is issued successfully, an
already-issued one is refused untouched. -/
theorem issue_spec_witness :
    ((Book.init "Dune" "Herbert" "111").issue.1 = true ∧
      (Book.init "Dune" "Herbert" "111").issue.2 =
        { title := "Dune", author := "Herbert", isbn := "111",
          status := "issued" }) ∧
    ((Book.mk "Dune" "Herbert" "111" "issued").issue.1 = false ∧
      (Book.mk "Dune" "Herbert" "111" "issued").issue.2 =
        Book.mk "Dune" "Herbert" "111" "issued") := by
  refine ⟨(issue_spec (Book.init "Dune" "Herbert" "111")).1 rfl, ?_⟩
  exact (issue_spec (Book.mk "Dune" "Herbert" "111" "issued")).2.1 (by decide)

/-- C2: returning an issued book succeeds and sets the status to
`"available"`; returning a non-issued book fails and leaves the book
unchanged; repeating `return_book` always fails. -/
theorem return_book_spec (b : Book) :
    (b.status = "issued" →
      b.return_book.1 = true ∧
      b.return_book.2 = { b with status := "available" }) ∧
    (b.status ≠ "issued" → b.return_book.1 = false ∧ b.return_book.2 = b) ∧
    (b.return_book.2.return_book.1 = false ∧
      b.return_book.2.return_book.2 = b.return_book.2) := by
  by_cases h : b.status = "issued" <;>
    simp [Book.return_book, h]

/-- Witness for C2: a concrete issued book is returned successfully, an
available one is refused untouched. -/
theorem return_book_spec_witness :
    ((Book.mk "Dune" "Herbert" "111" "issued").return_book.1 = true ∧
      (Book.mk "Dune" "Herbert" "111" "issued").return_book.2 =
        Book.mk "Dune" "Herbert" "111" "available") ∧
    ((Book.mk "Dune" "Herbert" "111" "available").return_book.1 = false ∧
      (Book.mk "Dune" "Herbert" "111" "available").return_book.2 =
        Book.mk "Dune" "Herbert" "111" "available") := by
  refine ⟨(return_book_spec (Book.mk "Dune" "Herbert" "111" "issued")).1 rfl, ?_⟩
  exact (return_book_spec (Book.mk "Dune" "Herbert" "111" "available")).2.1
    (by decide)

/-- C10: constructing a Book without an explicit status argument, as the
CLI's Add Book path does, yields status `"available"`. -/
theorem init_status_available (t a i : String) :
    (Book.init t a i).status = "available" :=
  rfl

/-- Counterexample to C3: deserializing a record whose status field is
`"borrowed"` succeeds (`from_dict` validates nothing, lines 53-61) and
yields a Book whose status is neither `"available"` nor `"issued"`. -/
theorem status_invariant_counterexample :
    Book.from_dict
        [("title", "T"), ("author", "A"), ("isbn", "1"),
         ("status", "borrowed")] =
      Except.ok (Book.mk "T" "A" "1" "borrowed") ∧
    statusValid (Book.mk "T" "A" "1" "borrowed") = false := by
  constructor
  · rfl
  · decide

/-- C3 as amended: a book constructed without an explicit status starts
`"available"`; `issue` and `return_book` preserve membership of the status
in the two enum values; but `from_dict` copies the record's status field
verbatim, so the invariant holds after deserialization only when the
record's status field is one of the two enum values. -/
theorem status_invariant (t a i : String) (b c : Book) (d : Dict) :
    statusValid (Book.init t a i) = true ∧
    (statusValid b = true →
      statusValid b.issue.2 = true ∧ statusValid b.return_book.2 = true) ∧
    (Book.from_dict d = Except.ok c →
      List.lookup "status" d = some c.status) := by
  refine ⟨by simp [statusValid, Book.init], ?_,
    fun h => (from_dict_ok d c h).2.2.2⟩
  intro h
  have h2 : b.status = "available" ∨ b.status = "issued" := by
    simpa [statusValid] using h
  rcases h2 with h' | h' <;>
    simp [statusValid, Book.issue, Book.return_book, h']

/-- Witness for C3 (amended): the clauses at a concrete valid book and the
record it serializes to. -/
theorem status_invariant_witness :
    statusValid (Book.mk "T" "A" "1" "available").issue.2 = true ∧
    List.lookup "status" (Book.to_dict (Book.mk "T" "A" "1" "issued")) =
      some "issued" := by
  constructor
  · exact ((status_invariant "T" "A" "1" (Book.mk "T" "A" "1" "available")
      (Book.mk "T" "A" "1" "available") []).2.1 (by decide)).1
  · exact (status_invariant "T" "A" "1" (Book.mk "T" "A" "1" "issued")
      (Book.mk "T" "A" "1" "issued")
      (Book.to_dict (Book.mk "T" "A" "1" "issued"))).2.2
      (from_dict_to_dict (Book.mk "T" "A" "1" "issued"))

/-- C4: for a book whose status is one of the two enum values (any valid
field combination), deserializing its serialization restores the book,
all four fields included. -/
theorem to_dict_roundtrip (b : Book) (_h : statusValid b = true) :
    Book.from_dict (Book.to_dict b) = Except.ok b :=
  from_dict_to_dict b

/-- Witness for C4: the round-trip at a concrete valid book. -/
theorem to_dict_roundtrip_witness :
    statusValid (Book.mk "War and Peace" "Tolstoy" "42" "issued") = true ∧
    Book.from_dict (Book.to_dict (Book.mk "War and Peace" "Tolstoy" "42"
      "issued")) =
      Except.ok (Book.mk "War and Peace" "Tolstoy" "42" "issued") :=
  ⟨by decide,
   to_dict_roundtrip (Book.mk "War and Peace" "Tolstoy" "42" "issued")
     (by decide)⟩

/-- Saving a book list then materializing the records succeeds and
restores the list. -/
theorem fromRecords_map_to_dict (books : List Book) :
    fromRecords (books.map Book.to_dict) = Except.ok books := by
  induction books with
  | nil => rfl
  | cons b rest ih =>
      simp [fromRecords, from_dict_to_dict b, ih, bind, Except.bind, pure,
        Except.pure]

/-- C5: saving an inventory's books and loading from the file yields the
same book list, equal in content and order. -/
theorem save_load_roundtrip (inv : LibraryInventory) :
    load_books (save_books inv.books) = inv.books := by
  simp [load_books, save_books, loadAttempt, fromRecords_map_to_dict]

/-- `leadsWith needle hay` decides whether `needle` starts `hay`. -/
theorem leadsWith_iff (needle : List Char) :
    ∀ hay, leadsWith needle hay = true ↔ ∃ post, hay = needle ++ post := by
  induction needle with
  | nil =>
      intro hay
      simp [leadsWith]
  | cons a as ih =>
      intro hay
      cases hay with
      | nil => simp [leadsWith]
      | cons b bs =>
          rw [leadsWith, Bool.and_eq_true, beq_iff_eq, ih bs]
          constructor
          · rintro ⟨rfl, post, rfl⟩
            exact ⟨post, rfl⟩
          · rintro ⟨post, hp⟩
            injection hp with hb hbs
            exact ⟨hb.symm, post, hbs⟩

/-- `containsChars needle hay` decides whether `needle` occurs inside
`hay`: Python's `in` is substring occurrence. -/
theorem containsChars_iff (needle : List Char) :
    ∀ hay, containsChars needle hay = true ↔
      ∃ pre post, hay = pre ++ needle ++ post := by
  intro hay
  induction hay with
  | nil =>
      rw [containsChars, List.isEmpty_iff]
      constructor
      · rintro rfl
        exact ⟨[], [], rfl⟩
      · rintro ⟨pre, post, hp⟩
        exact (List.append_eq_nil.mp (List.append_eq_nil.mp hp.symm).1).2
  | cons b bs ih =>
      rw [containsChars, Bool.or_eq_true, leadsWith_iff, ih]
      constructor
      · rintro (⟨post, hp⟩ | ⟨pre, post, hp⟩)
        · exact ⟨[], post, hp⟩
        · exact ⟨b :: pre, post, by simp [hp]⟩
      · rintro ⟨pre, post, hp⟩
        cases pre with
        | nil => exact Or.inl ⟨post, hp⟩
        | cons p ps =>
            injection hp with hb hbs
            exact Or.inr ⟨ps, post, hbs⟩

/-- C6: `search_by_title` returns exactly the books whose lowercased title
contains the lowercased query as a substring, in stored order (a sublist
of the book list, so empty when nothing matches); `"war"` matches
"War and Peace" and "Warlock" but not "Dune". -/
theorem search_by_title_spec (inv : LibraryInventory) (q : String) :
    inv.search_by_title q =
      inv.books.filter (fun b => strContains (lowerStr b.title) (lowerStr q)) ∧
    (∀ b : Book, b ∈ inv.search_by_title q ↔
      b ∈ inv.books ∧
      ∃ pre post,
        (lowerStr b.title).data = pre ++ (lowerStr q).data ++ post) ∧
    List.Sublist (inv.search_by_title q) inv.books ∧
    (LibraryInventory.mk
        [Book.init "War and Peace" "Tolstoy" "1",
         Book.init "Warlock" "Harrison" "2",
         Book.init "Dune" "Herbert" "3"]).search_by_title "war" =
      [Book.init "War and Peace" "Tolstoy" "1",
       Book.init "Warlock" "Harrison" "2"] := by
  refine ⟨rfl, ?_, List.filter_sublist inv.books, by decide⟩
  intro b
  simp only [LibraryInventory.search_by_title, List.mem_filter, strContains]
  rw [containsChars_iff]

/-- The loop of `search_by_isbn` misses exactly when no book's isbn is the
argument. -/
theorem searchLoop_none_iff (i : String) :
    ∀ bs : List Book, searchLoop bs i = none ↔ ∀ b ∈ bs, b.isbn ≠ i := by
  intro bs
  induction bs with
  | nil => simp [searchLoop]
  | cons b rest ih =>
      by_cases hb : b.isbn = i
      · simp [searchLoop, hb]
      · simp [searchLoop, hb, ih]

/-- A hit of the loop of `search_by_isbn` is the first matching book. -/
theorem searchLoop_some (i : String) :
    ∀ bs : List Book, ∀ b, searchLoop bs i = some b →
      b.isbn = i ∧
      ∃ pre post, bs = pre ++ b :: post ∧ ∀ x ∈ pre, x.isbn ≠ i := by
  intro bs
  induction bs with
  | nil =>
      intro b h
      simp [searchLoop] at h
  | cons c rest ih =>
      intro b h
      rw [searchLoop] at h
      by_cases hc : c.isbn = i
      · simp only [hc, beq_self_eq_true, if_true] at h
        cases h
        exact ⟨hc, [], rest, rfl, by simp⟩
      · simp only [beq_iff_eq, hc, if_false] at h
        obtain ⟨hb, pre, post, hsplit, hpre⟩ := ih b h
        refine ⟨hb, c :: pre, post, by simp [hsplit], ?_⟩
        intro x hx
        rcases List.mem_cons.mp hx with h' | h'
        · rw [h']
          exact hc
        · exact hpre x h'

/-- C7: `search_by_isbn` returns `none` on an empty inventory and exactly
when no book's isbn equals the argument; a returned book is the first one
in stored order whose isbn equals the argument exactly. -/
theorem search_by_isbn_spec (inv : LibraryInventory) (i : String) :
    (inv.books = [] → inv.search_by_isbn i = none) ∧
    (inv.search_by_isbn i = none ↔ ∀ b ∈ inv.books, b.isbn ≠ i) ∧
    (∀ b, inv.search_by_isbn i = some b →
      b.isbn = i ∧
      ∃ pre post, inv.books = pre ++ b :: post ∧ ∀ x ∈ pre, x.isbn ≠ i) := by
  refine ⟨?_, searchLoop_none_iff i inv.books,
    fun b h => searchLoop_some i inv.books b h⟩
  intro h
  show searchLoop inv.books i = none
  rw [h]
  rfl

/-- C8: when the file content does not parse as a sequence of valid book
records — the `try` body fails — `load_books` swallows the error and
leaves the empty collection. -/
theorem load_books_malformed (c : FileContent)
    (h : ∃ e, loadAttempt c = Except.error e) :
    load_books c = [] := by
  obtain ⟨e, he⟩ := h
  rw [load_books, he]

/-- Witness for C8: a record missing its `author` key makes the whole
load fail, and the collection comes out empty; so does non-JSON
content. -/
theorem load_books_malformed_witness :
    load_books (FileContent.records [[("title", "T")]]) = [] ∧
    load_books FileContent.malformed = [] := by
  constructor
  · exact load_books_malformed (FileContent.records [[("title", "T")]])
      ⟨"KeyError: author", by rfl⟩
  · exact load_books_malformed FileContent.malformed
      ⟨"json.JSONDecodeError", rfl⟩

/-- C9: `from_dict` succeeds, reading the four fields, exactly when all
four keys `title`, `author`, `isbn`, `status` are present; a missing key
is a `KeyError`. -/
theorem from_dict_requires_four_fields (d : Dict) :
    (∀ tv av iv sv,
      List.lookup "title" d = some tv → List.lookup "author" d = some av →
      List.lookup "isbn" d = some iv → List.lookup "status" d = some sv →
      Book.from_dict d = Except.ok (Book.mk tv av iv sv)) ∧
    (List.lookup "title" d = none ∨ List.lookup "author" d = none ∨
      List.lookup "isbn" d = none ∨ List.lookup "status" d = none →
      ∃ e, Book.from_dict d = Except.error e) := by
  exact ⟨fun tv av iv sv h1 h2 h3 h4 => from_dict_present d tv av iv sv h1 h2 h3 h4,
    fun h => from_dict_missing d h⟩

/-- Witness for C9: a complete concrete record deserializes to the book
with its four values; dropping the `isbn` key makes `from_dict` raise. -/
theorem from_dict_requires_four_fields_witness :
    Book.from_dict
        [("title", "Dune"), ("author", "Herbert"), ("isbn", "111"),
         ("status", "available")] =
      Except.ok (Book.mk "Dune" "Herbert" "111" "available") ∧
    (∃ e, Book.from_dict
        [("title", "Dune"), ("author", "Herbert"), ("status", "available")] =
      Except.error e) := by
  constructor
  · exact (from_dict_requires_four_fields
      [("title", "Dune"), ("author", "Herbert"), ("isbn", "111"),
       ("status", "available")]).1
      "Dune" "Herbert" "111" "available" rfl rfl rfl rfl
  · exact (from_dict_requires_four_fields
      [("title", "Dune"), ("author", "Herbert"), ("status", "available")]).2
      (Or.inr (Or.inr (Or.inl rfl)))
